import Mathlib

/-!
Verification of the XRAYREP-report-generator notebooks.

This file shallowly embeds the two notebooks of the repository,
`XREPORT/data/data_validation.ipynb` and
`XREPORT/training/model_evaluation.ipynb`, and settles the frozen claims
about them.  Both notebooks are straight-line glue code: they read CSV
files, call a handful of external library functions, and print results.
The embedding models each notebook as a pure function from its fallible
inputs (CSV contents, checkpoint contents, configuration values) to an
`Except`-wrapped result carrying the trace of observable effects.
-/

namespace XRAYREP

/-- A row of a loaded dataframe.  Each CSV row carries a free-text report
field; the validation flow additionally resolves an image file path per row
(`find_images_path`). -/
structure Row where
  text : String
  path : String
  deriving DecidableEq, Repr

/-- A Python exception value, as produced by the underlying libraries
(`pandas`, file IO, the model-loading code).  The notebooks contain no
try/except, so these propagate unmodified. -/
inductive PyError where
  | ioError (msg : String) : PyError
  | valueError (msg : String) : PyError
  | libraryError (msg : String) : PyError
  deriving DecidableEq, Repr

/-- An observable effect of running a notebook cell. -/
inductive Effect where
  | readFile (name : String) : Effect
  | writeFile (name : String) : Effect
  | consolePrint (msg : String) : Effect
  | plot (name : String) : Effect
  deriving DecidableEq, Repr

/-! ### Python `str.split()` (no argument), from `data_validation.ipynb`
`words_list = [x.split() for x in total_text]` -/

/-- Python whitespace characters recognised by `str.split()` with no
argument (ASCII subset: space, tab, newline, carriage return, vertical tab,
form feed). -/
def pyWhitespace (c : Char) : Bool :=
  c == ' ' || c == '\t' || c == '\n' || c == '\r' ||
  c == Char.ofNat 11 || c == Char.ofNat 12

/-- Accumulator-based word splitter: `acc` holds the (reversed) characters
of the word currently being read. -/
def splitWordsAux : List Char → List Char → List String
  | [], [] => []
  | [], acc => [String.mk acc.reverse]
  | c :: cs, acc =>
    if pyWhitespace c then
      match acc with
      | [] => splitWordsAux cs []
      | _ => String.mk acc.reverse :: splitWordsAux cs []
    else splitWordsAux cs (c :: acc)

/-- Python `s.split()` with no argument: split on runs of whitespace,
producing no empty words. -/
def pySplit (s : String) : List String :=
  splitWordsAux s.toList []

/-- The word list built by the text-analysis cell of
`data_validation.ipynb`:
`total_text = dataset['text'].to_list()`,
`words_list = [x.split() for x in total_text]`,
`words_list = [item for sublist in words_list for item in sublist]`. -/
def wordsList (dataset : List Row) : List String :=
  (((dataset.map Row.text).map pySplit)).flatten

/-! ### pandas `DataFrame.sample(n=..., random_state=...)` -/

/-- One step of a 64-bit linear congruential generator, standing in for the
pseudorandom stream pandas derives from `random_state`.  The claims depend
only on the stream being a deterministic function of the seed. -/
def lcgNext (s : Nat) : Nat :=
  (6364136223846793005 * s + 1442695040888963407) % 18446744073709551616

/-- Draw `n` rows without replacement, each step removing the chosen index
from the population, driven by the seed-keyed pseudorandom stream. -/
def sampleAux : Nat → Nat → List Row → List Row
  | 0, _, _ => []
  | n + 1, s, l =>
    if l.isEmpty then []
    else
      let i := lcgNext s % l.length
      l.getD i ⟨"", ""⟩ :: sampleAux n (lcgNext s) (l.eraseIdx i)

/-- Modelled from the documented behaviour of the external library call
`dataset.sample(n=total_samples, random_state=cnf.SEED)` in
`data_validation.ipynb`: a deterministic pseudorandom selection of `n`
distinct rows keyed by the seed; pandas raises a `ValueError` when `n`
exceeds the population size (sampling is without replacement), modelled
here as `none`. -/
def dfSample (l : List Row) (n : Nat) (seed : Nat) : Option (List Row) :=
  if n ≤ l.length then some (sampleAux n seed l) else none

/-! ### The validation flow (`data_validation.ipynb`) -/

/-- The externally supplied configuration values used by
`data_validation.ipynb` (`XREPORT.commons.configurations`). -/
structure ValidationConfig where
  SEED : Nat
  TRAIN_SAMPLES : Nat
  TEST_SAMPLES : Nat
  IMG_SHAPE : List Nat
  deriving DecidableEq, Repr

/-- Modelled from the spec: `find_images_path` from
`XREPORT.commons.utils.preprocessing` is not among the provided sources;
the spec says the validation flow resolves an image file path for each row
of the loaded CSV.  It is modelled as joining the image-data directory with
each row's path field, a deterministic per-row path resolution. -/
def find_images_path (imgDataPath : String) (dataset : List Row) : List Row :=
  dataset.map (fun r => { r with path := imgDataPath ++ "/" ++ r.path })

/-- The single quote character, used by Python `repr` of strings. -/
def quoteChar : String := String.singleton (Char.ofNat 39)

/-- Python `print(words_list)` prints the `repr` of a list of strings. -/
def pyReprList (ws : List String) : String :=
  "[" ++ String.intercalate ", " (ws.map (fun w => quoteChar ++ w ++ quoteChar)) ++ "]"

/-- The message printed by the pixel-intensity-histogram cell of
`data_validation.ipynb`; everything else in that cell is commented out.
`cnf.IMG_SHAPE[:-1]` drops the last element of the shape tuple. -/
def shapeMsg (imgShape : List Nat) : String :=
  "\nLoading pictures from train and test dataset. Current picture shape is (" ++
    String.intercalate ", " (imgShape.dropLast.map toString) ++ ")\n"

/-- The effects performed by the pixel-intensity-histogram cell: the image
loading and histogram computation are commented out in the source, leaving
exactly one console print. -/
def histogramCellTrace (cfg : ValidationConfig) : List Effect :=
  [Effect.consolePrint (shapeMsg cfg.IMG_SHAPE)]

/-- The outcome of a successful run of `data_validation.ipynb`. -/
structure ValidationRun where
  trace : List Effect
  subset : List Row
  laterTrace : List Effect
  deriving DecidableEq, Repr

/-- The validation flow of `data_validation.ipynb`: read
`XREP_dataset.csv` (semicolon-delimited, UTF-8), resolve image paths,
sample `TRAIN_SAMPLES + TEST_SAMPLES` rows keyed by `SEED`, print the
flattened word list of the full dataset's text column, then print the
histogram cell's message.  `csv` is the result of the CSV read, which may
fail with a library error; `laterTrace` records the outputs that come
after the subset has been computed. -/
def validationFlow (csv : Except PyError (List Row)) (imgDataPath : String)
    (cfg : ValidationConfig) : Except PyError ValidationRun :=
  match csv with
  | .error e => .error e
  | .ok raw =>
    let dataset := find_images_path imgDataPath raw
    let total_samples := cfg.TRAIN_SAMPLES + cfg.TEST_SAMPLES
    match dfSample dataset total_samples cfg.SEED with
    | none => .error (.valueError "Cannot take a larger sample than population when replace is False")
    | some subset =>
      let later := Effect.consolePrint (pyReprList (wordsList dataset)) :: histogramCellTrace cfg
      .ok { trace := Effect.readFile "XREP_dataset.csv" :: later
            subset := subset
            laterTrace := later }

/-- The subset computed by a run of the validation flow, `none` when the
flow raised. -/
def flowSubset : Except PyError ValidationRun → Option (List Row)
  | .error _ => none
  | .ok r => some r.subset

/-- The effect trace of a run of the validation flow (empty when the flow
raised before producing output). -/
def flowTrace : Except PyError ValidationRun → List Effect
  | .error _ => []
  | .ok r => r.trace

/-- The outputs of the validation flow that come after the subset has been
computed (empty when the flow raised). -/
def flowLaterOutputs : Except PyError ValidationRun → List Effect
  | .error _ => []
  | .ok r => r.laterTrace

/-! ### The evaluation flow (`model_evaluation.ipynb`) -/

/-- The externally supplied configuration values used by
`model_evaluation.ipynb` (`XREPORT.commons.configurations`). -/
structure EvalConfig where
  seed : Nat
  ML_DEVICE : String
  BATCH_SIZE : Nat
  IMG_SHAPE : List Nat
  IMG_AUGMENT : Bool
  EPOCHS : Nat
  deriving DecidableEq, Repr

/-- The hyperparameters record saved next to a checkpoint, returned by
`Inference.load_pretrained_model` together with the model.  Modelled from
the spec: the `Inference` class is not among the provided sources; the
spec describes the checkpoint as opaque weights plus a parameters record
of the hyperparameters used at training time. -/
structure Params where
  batch_size : Nat
  epochs : Nat
  deriving DecidableEq, Repr

/-- An opaque pretrained model; `model.summary()` prints its summary
text. -/
structure PretrainedModel where
  summaryText : String
  deriving DecidableEq, Repr

/-- The contents of a checkpoint directory: model weights and the
parameters record, loaded together by `load_pretrained_model`. -/
structure Checkpoint where
  model : PretrainedModel
  parameters : Params
  deriving DecidableEq, Repr

/-- The external `DataGenerator` class, initialised as
`DataGenerator(data, cnf.BATCH_SIZE, cnf.IMG_SHAPE, shuffle=True,
augmentation=cnf.IMG_AUGMENT)`.  Its internals are external; the notebook
only constructs it, so it is modelled as the record of its constructor
arguments. -/
structure DataGenerator where
  data : List Row
  batchSize : Nat
  imgShape : List Nat
  shuffle : Bool
  augmentation : Bool
  deriving DecidableEq, Repr

/-- The tf.dataset object built by `TensorDataSet.create_tf_dataset` from
a generator; its internals are external, so it is modelled as a wrapper of
the generator it was built from. -/
structure TfDataset where
  generator : DataGenerator
  deriving DecidableEq, Repr

/-- Modelled from the spec: `TensorDataSet.create_tf_dataset` wraps a
generator as a dataset object. -/
def create_tf_dataset (g : DataGenerator) : TfDataset := ⟨g⟩

/-- The values interpolated into the evaluation summary print of
`model_evaluation.ipynb`: `num_train_samples = train_data.shape[0]`,
`num_test_samples = test_data.shape[0]`, `cnf.BATCH_SIZE`, `cnf.EPOCHS`. -/
structure EvalSummary where
  numTrainSamples : Nat
  numTestSamples : Nat
  batchSize : Nat
  epochs : Nat
  deriving DecidableEq, Repr

/-- The evaluation report string printed by the last cell of
`model_evaluation.ipynb`. -/
def renderSummary (s : EvalSummary) : String :=
  "\n-------------------------------------------------------------------------------\n" ++
  "XRAYREP evaluation report\n" ++
  "-------------------------------------------------------------------------------\n" ++
  "Number of train samples: " ++ toString s.numTrainSamples ++ "\n" ++
  "Number of test samples:  " ++ toString s.numTestSamples ++ "\n" ++
  "-------------------------------------------------------------------------------\n" ++
  "Batch size:              " ++ toString s.batchSize ++ "\n" ++
  "Epochs:                  " ++ toString s.epochs ++ "\n" ++
  "-------------------------------------------------------------------------------\n"

/-- The outcome of a successful run of `model_evaluation.ipynb`. -/
structure EvalRun where
  model : PretrainedModel
  parameters : Params
  trainDataset : TfDataset
  testDataset : TfDataset
  summary : EvalSummary
  trace : List Effect
  deriving DecidableEq, Repr

/-- The fallible external inputs of `model_evaluation.ipynb`: the
checkpoint loaded by `load_pretrained_model`, and the two preprocessed CSV
files `XREP_train.csv` and `XREP_test.csv` (semicolon-delimited, UTF-8)
read from the checkpoint's preprocessing folder. -/
structure EvalEnv where
  checkpoint : Except PyError Checkpoint
  trainCsv : Except PyError (List Row)
  testCsv : Except PyError (List Row)

/-- The evaluation flow of `model_evaluation.ipynb`: load the pretrained
model and its parameters record, print the model summary, read the train
and test CSVs, build the two generators and tf.datasets, and print the
evaluation summary built from the dataframe row counts and the
configuration values `BATCH_SIZE` and `EPOCHS`. -/
def evaluationFlow (env : EvalEnv) (cfg : EvalConfig) : Except PyError EvalRun :=
  match env.checkpoint with
  | .error e => .error e
  | .ok ckpt =>
    match env.trainCsv with
    | .error e => .error e
    | .ok train_data =>
      match env.testCsv with
      | .error e => .error e
      | .ok test_data =>
        let train_generator : DataGenerator :=
          ⟨train_data, cfg.BATCH_SIZE, cfg.IMG_SHAPE, true, cfg.IMG_AUGMENT⟩
        let test_generator : DataGenerator :=
          ⟨test_data, cfg.BATCH_SIZE, cfg.IMG_SHAPE, true, cfg.IMG_AUGMENT⟩
        let summary : EvalSummary :=
          ⟨train_data.length, test_data.length, cfg.BATCH_SIZE, cfg.EPOCHS⟩
        .ok { model := ckpt.model
              parameters := ckpt.parameters
              trainDataset := create_tf_dataset train_generator
              testDataset := create_tf_dataset test_generator
              summary := summary
              trace := [Effect.readFile "checkpoint",
                        Effect.consolePrint ckpt.model.summaryText,
                        Effect.readFile "XREP_train.csv",
                        Effect.readFile "XREP_test.csv",
                        Effect.consolePrint (renderSummary summary)] }

/-- The effect trace of a run of the evaluation flow (empty when the flow
raised before producing output). -/
def evalFlowTrace : Except PyError EvalRun → List Effect
  | .error _ => []
  | .ok r => r.trace

/-- The evaluation report printed by a run of the evaluation flow, `none`
when the flow raised. -/
def flowReport : Except PyError EvalRun → Option String
  | .error _ => none
  | .ok r => some (renderSummary r.summary)

/-! ### The CSV reads of the notebooks -/

/-- One `pd.read_csv` call site, with the delimiter and encoding passed to
it. -/
structure CsvRead where
  file : String
  sep : Char
  encoding : String
  deriving DecidableEq, Repr

/-- The `pd.read_csv` call sites of `data_validation.ipynb`. -/
def validationCsvReads : List CsvRead :=
  [⟨"XREP_dataset.csv", Char.ofNat 59, "utf-8"⟩]

/-- The `pd.read_csv` call sites of `model_evaluation.ipynb`. -/
def evaluationCsvReads : List CsvRead :=
  [⟨"XREP_train.csv", Char.ofNat 59, "utf-8"⟩,
   ⟨"XREP_test.csv", Char.ofNat 59, "utf-8"⟩]

/-- All `pd.read_csv` call sites of the two notebooks. -/
def notebookCsvReads : List CsvRead :=
  validationCsvReads ++ evaluationCsvReads

/-! ### Helper lemmas -/

/-- Resolving image paths maps over the rows, so it preserves the row
count. -/
theorem find_images_path_length (imgDataPath : String) (d : List Row) :
    (find_images_path imgDataPath d).length = d.length :=
  List.length_map d _

/-- Sampling without replacement returns exactly the requested number of
rows when the population is large enough. -/
theorem sampleAux_length (n s : Nat) (l : List Row) (h : n ≤ l.length) :
    (sampleAux n s l).length = n := by
  induction n generalizing s l with
  | zero => rfl
  | succ n ih =>
    have hpos : 0 < l.length := Nat.lt_of_lt_of_le (Nat.succ_pos n) h
    have hne : ¬(l.isEmpty = true) := by
      cases l with
      | nil => simp at hpos
      | cons a t => simp [List.isEmpty]
    have hlt : lcgNext s % l.length < l.length := Nat.mod_lt _ hpos
    have h2 : n ≤ (l.eraseIdx (lcgNext s % l.length)).length := by
      rw [List.length_eraseIdx_of_lt hlt]
      omega
    simp only [sampleAux, if_neg hne, List.length_cons, ih _ _ h2]

/-- Every row drawn by the sampler is a row of the population. -/
theorem sampleAux_mem (n s : Nat) (l : List Row) (r : Row)
    (hr : r ∈ sampleAux n s l) : r ∈ l := by
  induction n generalizing s l with
  | zero => simp [sampleAux] at hr
  | succ n ih =>
    by_cases he : l.isEmpty = true
    · simp [sampleAux, he] at hr
    · have hpos : 0 < l.length := by
        cases l with
        | nil => simp [List.isEmpty] at he
        | cons a t => simp
      have hlt : lcgNext s % l.length < l.length := Nat.mod_lt _ hpos
      simp only [sampleAux, if_neg he] at hr
      rcases List.mem_cons.mp hr with h1 | h2
      · rw [h1, List.getD_eq_getElem l _ hlt]
        exact List.getElem_mem hlt
      · exact (List.eraseIdx_sublist l _).subset (ih _ _ h2)

/-- `dfSample` succeeds exactly on a sufficient population. -/
theorem dfSample_eq_some (l : List Row) (n s : Nat) (h : n ≤ l.length) :
    dfSample l n s = some (sampleAux n s l) := by
  simp [dfSample, h]

/-! ### The claims -/

/-- C2: for every dataset and every fixed seed and fixed sample count, two
runs of the validation flow's subset selection on that dataset produce
identical subsets (same rows in the same order).  The two runs are given
by two configuration records that agree on the seed and on the total
sample count; everything else (for example the image shape) may differ. -/
theorem claim_C2_subset_deterministic (csv : Except PyError (List Row))
    (imgDataPath : String) (cfg1 cfg2 : ValidationConfig)
    (hseed : cfg1.SEED = cfg2.SEED)
    (hn : cfg1.TRAIN_SAMPLES + cfg1.TEST_SAMPLES = cfg2.TRAIN_SAMPLES + cfg2.TEST_SAMPLES) :
    flowSubset (validationFlow csv imgDataPath cfg1) =
      flowSubset (validationFlow csv imgDataPath cfg2) := by
  cases csv with
  | error e => rfl
  | ok raw =>
    simp only [validationFlow, hseed, hn]
    rcases hds : dfSample (find_images_path imgDataPath raw)
        (cfg2.TRAIN_SAMPLES + cfg2.TEST_SAMPLES) cfg2.SEED with _ | s <;>
      simp [hds, flowSubset]

/-- Witness for C2 at a concrete dataset and two concrete configurations
agreeing on seed and total sample count. -/
theorem claim_C2_subset_deterministic_witness :
    (⟨7, 1, 1, [128, 128, 3]⟩ : ValidationConfig).SEED =
        (⟨7, 2, 0, [256, 256, 1]⟩ : ValidationConfig).SEED ∧
    (⟨7, 1, 1, [128, 128, 3]⟩ : ValidationConfig).TRAIN_SAMPLES +
        (⟨7, 1, 1, [128, 128, 3]⟩ : ValidationConfig).TEST_SAMPLES =
      (⟨7, 2, 0, [256, 256, 1]⟩ : ValidationConfig).TRAIN_SAMPLES +
        (⟨7, 2, 0, [256, 256, 1]⟩ : ValidationConfig).TEST_SAMPLES ∧
    flowSubset (validationFlow (Except.ok [⟨"a b", "x.png"⟩, ⟨"c", "y.png"⟩]) "IMG"
        ⟨7, 1, 1, [128, 128, 3]⟩) =
      flowSubset (validationFlow (Except.ok [⟨"a b", "x.png"⟩, ⟨"c", "y.png"⟩]) "IMG"
        ⟨7, 2, 0, [256, 256, 1]⟩) :=
  ⟨rfl, rfl,
    claim_C2_subset_deterministic (Except.ok [⟨"a b", "x.png"⟩, ⟨"c", "y.png"⟩]) "IMG"
      ⟨7, 1, 1, [128, 128, 3]⟩ ⟨7, 2, 0, [256, 256, 1]⟩ rfl rfl⟩

/-- C3: for every dataset of rows with a text field, splitting each row's
text on whitespace and flattening yields a list whose length is the sum
over the rows of the per-row word counts. -/
theorem claim_C3_word_count (dataset : List Row) :
    (wordsList dataset).length =
      (dataset.map (fun r => (pySplit r.text).length)).sum := by
  unfold wordsList
  rw [List.length_flatten, List.map_map, List.map_map]
  rfl

/-- C5: for every dataset with at least `TRAIN_SAMPLES + TEST_SAMPLES`
rows, the subset selected by the validation flow has exactly
`TRAIN_SAMPLES + TEST_SAMPLES` rows, each of which is a row of the dataset
being sampled (the loaded CSV rows with their image paths resolved). -/
theorem claim_C5_subset_size_and_membership (d : List Row) (imgDataPath : String)
    (cfg : ValidationConfig)
    (h : cfg.TRAIN_SAMPLES + cfg.TEST_SAMPLES ≤ d.length) :
    ∃ subset, flowSubset (validationFlow (Except.ok d) imgDataPath cfg) = some subset ∧
      subset.length = cfg.TRAIN_SAMPLES + cfg.TEST_SAMPLES ∧
      ∀ r ∈ subset, r ∈ find_images_path imgDataPath d := by
  have hlen : cfg.TRAIN_SAMPLES + cfg.TEST_SAMPLES ≤
      (find_images_path imgDataPath d).length := by
    rw [find_images_path_length]
    exact h
  refine ⟨sampleAux (cfg.TRAIN_SAMPLES + cfg.TEST_SAMPLES) cfg.SEED
      (find_images_path imgDataPath d), ?_, sampleAux_length _ _ _ hlen,
      fun r hr => sampleAux_mem _ _ _ _ hr⟩
  simp [validationFlow, dfSample_eq_some _ _ _ hlen, flowSubset]

/-- Witness for C5 at a concrete two-row dataset and a configuration
requesting all two rows. -/
theorem claim_C5_subset_size_and_membership_witness :
    (⟨9, 1, 1, [64, 64, 3]⟩ : ValidationConfig).TRAIN_SAMPLES +
        (⟨9, 1, 1, [64, 64, 3]⟩ : ValidationConfig).TEST_SAMPLES ≤
      ([⟨"a b", "x.png"⟩, ⟨"c", "y.png"⟩] : List Row).length ∧
    ∃ subset, flowSubset (validationFlow (Except.ok [⟨"a b", "x.png"⟩, ⟨"c", "y.png"⟩])
        "IMG" ⟨9, 1, 1, [64, 64, 3]⟩) = some subset ∧
      subset.length = (⟨9, 1, 1, [64, 64, 3]⟩ : ValidationConfig).TRAIN_SAMPLES +
        (⟨9, 1, 1, [64, 64, 3]⟩ : ValidationConfig).TEST_SAMPLES ∧
      ∀ r ∈ subset, r ∈ find_images_path "IMG" [⟨"a b", "x.png"⟩, ⟨"c", "y.png"⟩] :=
  ⟨by decide,
    claim_C5_subset_size_and_membership [⟨"a b", "x.png"⟩, ⟨"c", "y.png"⟩] "IMG"
      ⟨9, 1, 1, [64, 64, 3]⟩ (by decide)⟩

/-- C1 counterexample: the claim that the parameters record returned by
`load_pretrained_model` agrees with the batch size and epoch count printed
in the evaluation summary is false: the summary interpolates
`cnf.BATCH_SIZE` and `cnf.EPOCHS`, and the parameters record is never
consulted.  At a checkpoint whose parameters record says batch size 16 and
5 epochs, run with a configuration of batch size 32 and 10 epochs, the
flow succeeds, prints 32 and 10, and the parameters record still says 16
and 5. -/
theorem claim_C1_counterexample :
    (evaluationFlow ⟨Except.ok ⟨⟨"model summary"⟩, ⟨16, 5⟩⟩, Except.ok [], Except.ok []⟩
        ⟨0, "GPU", 32, [224, 224, 3], false, 10⟩).map
        (fun r => (r.summary.batchSize, r.summary.epochs,
          r.parameters.batch_size, r.parameters.epochs))
      = Except.ok (32, 10, 16, 5) ∧ ((32 : Nat) ≠ 16 ∧ (10 : Nat) ≠ 5) :=
  ⟨rfl, by decide⟩

/-- C1 amended: whenever the evaluation flow completes, the batch size and
epoch count recorded in its printed summary are the configuration values
`cnf.BATCH_SIZE` and `cnf.EPOCHS`, independent of the parameters record
loaded with the checkpoint. -/
theorem claim_C1_amended (env : EvalEnv) (cfg : EvalConfig) :
    (evaluationFlow env cfg).map (fun r => (r.summary.batchSize, r.summary.epochs)) =
      (evaluationFlow env cfg).map (fun _ => (cfg.BATCH_SIZE, cfg.EPOCHS)) := by
  rcases env with ⟨ck, tr, ts⟩
  cases ck <;> cases tr <;> cases ts <;> rfl

/-- C4: the printed number of train samples equals the row count of the
loaded `XREP_train.csv` dataframe, and the printed number of test samples
equals the row count of the loaded `XREP_test.csv` dataframe. -/
theorem claim_C4_sample_counts (ckpt : Checkpoint) (train_data test_data : List Row)
    (cfg : EvalConfig) :
    (evaluationFlow ⟨Except.ok ckpt, Except.ok train_data, Except.ok test_data⟩ cfg).map
        (fun r => (r.summary.numTrainSamples, r.summary.numTestSamples))
      = Except.ok (train_data.length, test_data.length) := rfl

/-- C6 counterexample: the two notebooks do not read exactly two CSV
files; they contain three `pd.read_csv` call sites (the dataset CSV in the
validation notebook, and the train and test CSVs in the evaluation
notebook). -/
theorem claim_C6_counterexample :
    notebookCsvReads.length = 3 ∧ notebookCsvReads.length ≠ 2 := by decide

/-- C6 amended: every CSV file read by the notebooks is read as
semicolon-delimited UTF-8 (character 59 is the semicolon), and the
notebooks contain exactly three such reads. -/
theorem claim_C6_amended :
    notebookCsvReads.length = 3 ∧
    notebookCsvReads.all
        (fun r => r.sep == Char.ofNat 59 && r.encoding == "utf-8") = true := by
  decide

/-- Recognises the file-writing effect. -/
def isWriteEffect : Effect → Bool
  | .writeFile _ => true
  | _ => false

/-- C7: executing the notebooks writes no file: every effect in the trace
of either flow is a read, a console print, or a plot, never a file write;
and the pixel-intensity-histogram cell performs no image loading or
histogram computation, only the single console print of the
picture-shape message. -/
theorem claim_C7_no_writes :
    (∀ csv imgDataPath cfg,
        (flowTrace (validationFlow csv imgDataPath cfg)).all
          (fun e => isWriteEffect e == false) = true) ∧
    (∀ env cfg,
        (evalFlowTrace (evaluationFlow env cfg)).all
          (fun e => isWriteEffect e == false) = true) ∧
    (∀ cfg, histogramCellTrace cfg = [Effect.consolePrint (shapeMsg cfg.IMG_SHAPE)]) := by
  refine ⟨?_, ?_, fun _ => rfl⟩
  · intro csv imgDataPath cfg
    cases csv with
    | error e => rfl
    | ok raw =>
      simp only [validationFlow]
      rcases hds : dfSample (find_images_path imgDataPath raw)
          (cfg.TRAIN_SAMPLES + cfg.TEST_SAMPLES) cfg.SEED with _ | s <;>
        simp [hds, flowTrace, histogramCellTrace, isWriteEffect, List.all]
  · intro env cfg
    rcases env with ⟨ck, tr, ts⟩
    cases ck <;> cases tr <;> cases ts <;> rfl

/-- C8: no call site of the notebooks catches, retries, transforms, or
recovers from any error: when the CSV read of the validation flow fails,
or when the checkpoint load, the train-CSV read, or the test-CSV read of
the evaluation flow fails, the flow's result is exactly the library's
error, unmodified. -/
theorem claim_C8_error_propagation :
    (∀ e imgDataPath cfg, validationFlow (Except.error e) imgDataPath cfg = Except.error e) ∧
    (∀ e tr ts cfg, evaluationFlow ⟨Except.error e, tr, ts⟩ cfg = Except.error e) ∧
    (∀ e ck ts cfg, evaluationFlow ⟨Except.ok ck, Except.error e, ts⟩ cfg = Except.error e) ∧
    (∀ e ck tr cfg, evaluationFlow ⟨Except.ok ck, Except.ok tr, Except.error e⟩ cfg = Except.error e) :=
  ⟨fun _ _ _ => rfl, fun _ _ _ _ => rfl, fun _ _ _ _ => rfl, fun _ _ _ _ => rfl⟩

/-- C9: the printed evaluation report depends only on the two dataframe
row counts and on the configuration values `BATCH_SIZE` and `EPOCHS`: two
successful runs agreeing on those four values print identical reports,
whatever their checkpoints, dataframe contents, or other configuration
values. -/
theorem claim_C9_report_noninterference (c1 c2 : Checkpoint) (t1 t2 s1 s2 : List Row)
    (cfg1 cfg2 : EvalConfig)
    (ht : t1.length = t2.length) (hs : s1.length = s2.length)
    (hb : cfg1.BATCH_SIZE = cfg2.BATCH_SIZE) (he : cfg1.EPOCHS = cfg2.EPOCHS) :
    flowReport (evaluationFlow ⟨Except.ok c1, Except.ok t1, Except.ok s1⟩ cfg1) =
      flowReport (evaluationFlow ⟨Except.ok c2, Except.ok t2, Except.ok s2⟩ cfg2) := by
  simp only [evaluationFlow, flowReport, ht, hs, hb, he]

/-- Witness for C9: two runs with different checkpoints, different row
contents, different devices, seeds, shapes and augmentation flags, but
equal row counts, batch size and epochs, print the same report. -/
theorem claim_C9_report_noninterference_witness :
    ([⟨"a", "x.png"⟩] : List Row).length = ([⟨"b", "y.png"⟩] : List Row).length ∧
    ([] : List Row).length = ([] : List Row).length ∧
    (⟨0, "GPU", 32, [224, 224, 3], false, 10⟩ : EvalConfig).BATCH_SIZE =
      (⟨1, "CPU", 32, [128, 128, 1], true, 10⟩ : EvalConfig).BATCH_SIZE ∧
    (⟨0, "GPU", 32, [224, 224, 3], false, 10⟩ : EvalConfig).EPOCHS =
      (⟨1, "CPU", 32, [128, 128, 1], true, 10⟩ : EvalConfig).EPOCHS ∧
    flowReport (evaluationFlow ⟨Except.ok ⟨⟨"m1"⟩, ⟨16, 5⟩⟩, Except.ok [⟨"a", "x.png"⟩],
        Except.ok []⟩ ⟨0, "GPU", 32, [224, 224, 3], false, 10⟩) =
      flowReport (evaluationFlow ⟨Except.ok ⟨⟨"m2"⟩, ⟨64, 7⟩⟩, Except.ok [⟨"b", "y.png"⟩],
        Except.ok []⟩ ⟨1, "CPU", 32, [128, 128, 1], true, 10⟩) :=
  ⟨rfl, rfl, rfl, rfl,
    claim_C9_report_noninterference ⟨⟨"m1"⟩, ⟨16, 5⟩⟩ ⟨⟨"m2"⟩, ⟨64, 7⟩⟩
      [⟨"a", "x.png"⟩] [⟨"b", "y.png"⟩] [] []
      ⟨0, "GPU", 32, [224, 224, 3], false, 10⟩ ⟨1, "CPU", 32, [128, 128, 1], true, 10⟩
      rfl rfl rfl rfl⟩

/-- C10 counterexample: the claim that any two validation runs on the same
dataset differing only in `SEED`, `TRAIN_SAMPLES` or `TEST_SAMPLES` have
identical later outputs is false: on a one-row dataset, a run requesting
one sample prints the word list and the shape message, while a run
requesting two samples raises inside `dataset.sample` (the requested
sample exceeds the population) and produces no later output at all. -/
theorem claim_C10_counterexample :
    (⟨0, 1, 0, [128, 128, 3]⟩ : ValidationConfig).SEED =
        (⟨0, 2, 0, [128, 128, 3]⟩ : ValidationConfig).SEED ∧
    (⟨0, 1, 0, [128, 128, 3]⟩ : ValidationConfig).IMG_SHAPE =
        (⟨0, 2, 0, [128, 128, 3]⟩ : ValidationConfig).IMG_SHAPE ∧
    flowLaterOutputs (validationFlow (Except.ok [⟨"a b", "i.png"⟩]) "IMG"
        ⟨0, 1, 0, [128, 128, 3]⟩) ≠
      flowLaterOutputs (validationFlow (Except.ok [⟨"a b", "i.png"⟩]) "IMG"
        ⟨0, 2, 0, [128, 128, 3]⟩) :=
  ⟨rfl, rfl, fun hcontra => absurd (congrArg List.length hcontra) (by decide)⟩

/-- C10 amended: the sampled subset is never read after it is computed:
the word list is built from the full dataset's text column, so two runs on
the same dataset that differ only in `SEED`, `TRAIN_SAMPLES` or
`TEST_SAMPLES` produce identical later outputs, provided both runs request
no more samples than the dataset has rows (otherwise the run that
over-requests raises inside `dataset.sample` and produces no later
output). -/
theorem claim_C10_amended (d : List Row) (imgDataPath : String)
    (cfg1 cfg2 : ValidationConfig)
    (hshape : cfg1.IMG_SHAPE = cfg2.IMG_SHAPE)
    (h1 : cfg1.TRAIN_SAMPLES + cfg1.TEST_SAMPLES ≤ d.length)
    (h2 : cfg2.TRAIN_SAMPLES + cfg2.TEST_SAMPLES ≤ d.length) :
    flowLaterOutputs (validationFlow (Except.ok d) imgDataPath cfg1) =
      flowLaterOutputs (validationFlow (Except.ok d) imgDataPath cfg2) := by
  have hl1 : cfg1.TRAIN_SAMPLES + cfg1.TEST_SAMPLES ≤
      (find_images_path imgDataPath d).length := by
    rw [find_images_path_length]
    exact h1
  have hl2 : cfg2.TRAIN_SAMPLES + cfg2.TEST_SAMPLES ≤
      (find_images_path imgDataPath d).length := by
    rw [find_images_path_length]
    exact h2
  simp [validationFlow, dfSample_eq_some _ _ _ hl1, dfSample_eq_some _ _ _ hl2,
    flowLaterOutputs, histogramCellTrace, hshape]

/-- Witness for C10 amended: a two-row dataset with two runs of different
seeds and sample counts, both within the population, have the same later
outputs. -/
theorem claim_C10_amended_witness :
    (⟨3, 1, 0, [64, 64, 3]⟩ : ValidationConfig).IMG_SHAPE =
        (⟨8, 1, 1, [64, 64, 3]⟩ : ValidationConfig).IMG_SHAPE ∧
    (⟨3, 1, 0, [64, 64, 3]⟩ : ValidationConfig).TRAIN_SAMPLES +
        (⟨3, 1, 0, [64, 64, 3]⟩ : ValidationConfig).TEST_SAMPLES ≤
      ([⟨"a b", "x.png"⟩, ⟨"c", "y.png"⟩] : List Row).length ∧
    (⟨8, 1, 1, [64, 64, 3]⟩ : ValidationConfig).TRAIN_SAMPLES +
        (⟨8, 1, 1, [64, 64, 3]⟩ : ValidationConfig).TEST_SAMPLES ≤
      ([⟨"a b", "x.png"⟩, ⟨"c", "y.png"⟩] : List Row).length ∧
    flowLaterOutputs (validationFlow (Except.ok [⟨"a b", "x.png"⟩, ⟨"c", "y.png"⟩]) "IMG"
        ⟨3, 1, 0, [64, 64, 3]⟩) =
      flowLaterOutputs (validationFlow (Except.ok [⟨"a b", "x.png"⟩, ⟨"c", "y.png"⟩]) "IMG"
        ⟨8, 1, 1, [64, 64, 3]⟩) :=
  ⟨rfl, by decide, by decide,
    claim_C10_amended [⟨"a b", "x.png"⟩, ⟨"c", "y.png"⟩] "IMG"
      ⟨3, 1, 0, [64, 64, 3]⟩ ⟨8, 1, 1, [64, 64, 3]⟩ rfl (by decide) (by decide)⟩

end XRAYREP
